import Mathlib

/-!
# Verification of the rtc-hal calendar/BCD core

Shallow embedding of the algorithmic core of the rtc-hal crate:
`src/bcd.rs` (BCD codec) and `src/datetime.rs` (calendar value,
weekday enumeration, Zeller weekday derivation).

Machine integers are modelled as `Nat` with an explicit `% 2^w`
exactly where the Rust operation can leave the range of its type
(`u8` for BCD bytes and date fields, `u16` for the Zeller arithmetic);
wherever an operation provably stays in range for in-range inputs,
no reduction is written, matching the source. Rust `Result` is
modelled by `Except`; the `&mut self` setters are modelled by
explicit state passing: a setter returns the post-call state paired
with the `Option`al error (the Rust `?` early-returns before any
field assignment, so on error the returned state is the input state,
exactly as in the source).
-/

namespace RtcHal

/-! ## BCD codec (src/bcd.rs) -/

/-- Rust `to_decimal` from src/bcd.rs: `((bcd >> 4) * 10) + (bcd & 0x0F)` on `u8`.
For `bcd < 256` every intermediate value is at most `15*10 + 15 = 165 < 256`,
so no `u8` operation can wrap; the trailing `% 256` records the `u8` result
type and is inert on in-range inputs. -/
def to_decimal (bcd : Nat) : Nat :=
  ((bcd >>> 4) * 10 + (bcd &&& 0x0F)) % 256

/-- Rust `from_decimal` from src/bcd.rs: `((decimal / 10) << 4) | (decimal % 10)` on
`u8`. The `u8` shift wraps, hence the `% 256` on the shifted value (for
`decimal ≤ 99` the tens nibble is at most 9 and nothing wraps). The source's
`debug_assert!(decimal <= 99)` is a debug-build assertion, not part of the
release semantics, and is not modelled. -/
def from_decimal (decimal : Nat) : Nat :=
  (((decimal / 10) <<< 4) % 256) ||| (decimal % 10)

/-! ## Calendar helpers (src/datetime.rs) -/

/-- Rust `is_leap_year` from src/datetime.rs:
`(year % 4 == 0) && (year % 100 != 0 || year % 400 == 0)`. -/
def is_leap_year (year : Nat) : Bool :=
  (year % 4 == 0) && (year % 100 != 0 || year % 400 == 0)

/-- Rust `days_in_month` from src/datetime.rs. -/
def days_in_month (year month : Nat) : Nat :=
  match month with
  | 1 | 3 | 5 | 7 | 8 | 10 | 12 => 31
  | 4 | 6 | 9 | 11 => 30
  | 2 => if is_leap_year year then 29 else 28
  | _ => 0

/-! ## Error and weekday types (src/datetime.rs) -/

/-- Rust `DateTimeError` from src/datetime.rs. -/
inductive DateTimeError where
  | invalidMonth
  | invalidDay
  | invalidHour
  | invalidMinute
  | invalidSecond
  | invalidWeekday
  | invalidYear
deriving DecidableEq, Repr

/-- Rust `Weekday` from src/datetime.rs (1 = Sunday .. 7 = Saturday). -/
inductive Weekday where
  | sunday
  | monday
  | tuesday
  | wednesday
  | thursday
  | friday
  | saturday
deriving DecidableEq, Repr

/-- Rust `Weekday::from_number` from src/datetime.rs. -/
def Weekday.from_number (n : Nat) : Except DateTimeError Weekday :=
  match n with
  | 1 => .ok .sunday
  | 2 => .ok .monday
  | 3 => .ok .tuesday
  | 4 => .ok .wednesday
  | 5 => .ok .thursday
  | 6 => .ok .friday
  | 7 => .ok .saturday
  | _ => .error .invalidWeekday

/-! ## Zeller weekday derivation (src/datetime.rs) -/

/-- The minuend of the `u16` subtraction inside `calculate_weekday`
(src/datetime.rs line 330), after the month `< 3` adjustment:
`day_of_month as u16 + ((13 * (month as u16 + 1)) / 5) + k + (k / 4) + (j / 4)`.
For `u16`/`u8`-range inputs this is at most
`255 + 667 + 99 + 24 + 163 < 2^16`, so none of the additions wrap. -/
def zeller_minuend (year month day_of_month : Nat) : Nat :=
  let y := if month < 3 then (year + 65535) % 65536 else year
  let m := if month < 3 then month + 12 else month
  let k := y % 100
  let j := y / 100
  day_of_month + (13 * (m + 1)) / 5 + k + k / 4 + j / 4

/-- The subtrahend `2 * j` of the `u16` subtraction inside
`calculate_weekday` (src/datetime.rs line 330). -/
def zeller_subtrahend (year month : Nat) : Nat :=
  let y := if month < 3 then (year + 65535) % 65536 else year
  2 * (y / 100)

/-- Rust `calculate_weekday` from src/datetime.rs. All arithmetic is `u16`
(`day`/`month` are cast up with `as u16`). The two spots where a `u16`
operation can leave the range are modelled with an explicit wrap:

* `year - 1` (month `< 3` branch) wraps at `year = 0`, modelled as
  `(year + 65535) % 65536`;
* the subtraction `... - 2 * j`, whose Rust release semantics is
  wrapping: `(a - b) mod 2^16 = (a + 2^16 - b) mod 2^16` for
  `a, b < 2^16`, modelled as `(... + 65536 - 2 * j) % 65536` (in
  Lean's truncated `Nat` subtraction this is exact for in-range
  operands). In debug builds this subtraction instead panics when
  it underflows.

No other operation can leave `u16` for `u16`/`u8`-range inputs. -/
def calculate_weekday (year month day_of_month : Nat) :
    Except DateTimeError Weekday :=
  let y := if month < 3 then (year + 65535) % 65536 else year
  let m := if month < 3 then month + 12 else month
  let k := y % 100
  let j := y / 100
  let h := ((day_of_month + (13 * (m + 1)) / 5 + k + k / 4 + j / 4
              + 65536 - 2 * j) % 65536) % 7
  let weekday_num := ((h + 6) % 7) + 1
  Weekday.from_number weekday_num

/-- Zeller's congruence exactly as the spec states it, in unbounded
integer arithmetic: for month `< 3` the date is treated as
`(year - 1, month + 12)`; with `k = year mod 100`, `j = year div 100`,
`h = (day + ⌊13(month+1)/5⌋ + k + ⌊k/4⌋ + ⌊j/4⌋ - 2j) mod 7`
(mathematical mod, 0 = Saturday), converted to the 1=Sunday..7=Saturday
numbering via `((h + 6) mod 7) + 1`. Stated over `Int` so that the
subtraction and the mod are exact; this is the comparison point for the
implementation, not a translation of the source. -/
def zeller_spec_weekday_num (year month day : Int) : Int :=
  let y := if month < 3 then year - 1 else year
  let m := if month < 3 then month + 12 else month
  let k := y % 100
  let j := y / 100
  let h := (day + (13 * (m + 1)) / 5 + k + k / 4 + j / 4 - 2 * j) % 7
  ((h + 6) % 7) + 1

/-! ## The DateTime structure and its validation (src/datetime.rs) -/

/-- Rust `DateTime` from src/datetime.rs (`year : u16`, the rest `u8`). -/
structure DateTime where
  year : Nat
  month : Nat
  day_of_month : Nat
  hour : Nat
  minute : Nat
  second : Nat
deriving DecidableEq, Repr

/-- Rust `DateTime::validate_year`: year must be `>= 1970`. -/
def validate_year (year : Nat) : Option DateTimeError :=
  if year < 1970 then some .invalidYear else none

/-- Rust `DateTime::validate_month`: `month == 0 || month > 12` is rejected. -/
def validate_month (month : Nat) : Option DateTimeError :=
  if month = 0 ∨ 12 < month then some .invalidMonth else none

/-- Rust `DateTime::validate_day`: `day == 0 || day > days_in_month year month`
is rejected. -/
def validate_day (year month day : Nat) : Option DateTimeError :=
  let max_day := days_in_month year month
  if day = 0 ∨ max_day < day then some .invalidDay else none

/-- Rust `DateTime::validate_hour`: `hour > 23` is rejected. -/
def validate_hour (hour : Nat) : Option DateTimeError :=
  if 23 < hour then some .invalidHour else none

/-- Rust `DateTime::validate_minute`: `minute > 59` is rejected. -/
def validate_minute (minute : Nat) : Option DateTimeError :=
  if 59 < minute then some .invalidMinute else none

/-- Rust `DateTime::validate_second`: `second > 59` is rejected. -/
def validate_second (second : Nat) : Option DateTimeError :=
  if 59 < second then some .invalidSecond else none

/-- Rust `DateTime::validate`: the `?`-chain of the six field validators, in
source order (year, month, day, hour, minute, second); `none` means `Ok(())`,
`some e` the first error encountered. -/
def DateTime.validate (dt : DateTime) : Option DateTimeError :=
  match validate_year dt.year with
  | some e => some e
  | none =>
  match validate_month dt.month with
  | some e => some e
  | none =>
  match validate_day dt.year dt.month dt.day_of_month with
  | some e => some e
  | none =>
  match validate_hour dt.hour with
  | some e => some e
  | none =>
  match validate_minute dt.minute with
  | some e => some e
  | none => validate_second dt.second

/-- Rust `DateTime::new`: build the candidate and validate it. -/
def DateTime.new (year month day_of_month hour minute second : Nat) :
    Except DateTimeError DateTime :=
  let dt : DateTime := ⟨year, month, day_of_month, hour, minute, second⟩
  match dt.validate with
  | some e => .error e
  | none => .ok dt

/-- Rust `DateTime::set_year`: validate the new year, then re-validate the
existing day against the new year; assign only after both pass. Returned
pair: post-call state and the `Result` (`none` = `Ok(())`). -/
def DateTime.set_year (dt : DateTime) (year : Nat) :
    DateTime × Option DateTimeError :=
  match validate_year year with
  | some e => (dt, some e)
  | none =>
  match validate_day year dt.month dt.day_of_month with
  | some e => (dt, some e)
  | none => ({ dt with year := year }, none)

/-- Rust `DateTime::set_month`: validate the new month, then re-validate the
existing day against the new month; assign only after both pass. -/
def DateTime.set_month (dt : DateTime) (month : Nat) :
    DateTime × Option DateTimeError :=
  match validate_month month with
  | some e => (dt, some e)
  | none =>
  match validate_day dt.year month dt.day_of_month with
  | some e => (dt, some e)
  | none => ({ dt with month := month }, none)

/-- Rust `DateTime::set_day_of_month`. -/
def DateTime.set_day_of_month (dt : DateTime) (day_of_month : Nat) :
    DateTime × Option DateTimeError :=
  match validate_day dt.year dt.month day_of_month with
  | some e => (dt, some e)
  | none => ({ dt with day_of_month := day_of_month }, none)

/-- Rust `DateTime::set_hour`. -/
def DateTime.set_hour (dt : DateTime) (hour : Nat) :
    DateTime × Option DateTimeError :=
  match validate_hour hour with
  | some e => (dt, some e)
  | none => ({ dt with hour := hour }, none)

/-- Rust `DateTime::set_minute`. -/
def DateTime.set_minute (dt : DateTime) (minute : Nat) :
    DateTime × Option DateTimeError :=
  match validate_minute minute with
  | some e => (dt, some e)
  | none => ({ dt with minute := minute }, none)

/-- Rust `DateTime::set_second`. -/
def DateTime.set_second (dt : DateTime) (second : Nat) :
    DateTime × Option DateTimeError :=
  match validate_second second with
  | some e => (dt, some e)
  | none => ({ dt with second := second }, none)

/-- The joint validity predicate of the six fields, as the spec states the
invariant: an existing Gregorian calendar instant on or after
1970-01-01T00:00:00. -/
def Valid (dt : DateTime) : Prop :=
  1970 ≤ dt.year ∧ 1 ≤ dt.month ∧ dt.month ≤ 12 ∧
  1 ≤ dt.day_of_month ∧ dt.day_of_month ≤ days_in_month dt.year dt.month ∧
  dt.hour ≤ 23 ∧ dt.minute ≤ 59 ∧ dt.second ≤ 59

instance (dt : DateTime) : Decidable (Valid dt) := by
  unfold Valid; infer_instance

/-- The `DateTime` values reachable through the public interface: produced
by a successful `DateTime::new` and then mutated only by setter calls —
each setter call replaces the value by the state the setter returns, which
is the unchanged input state whenever the setter reports an error. -/
inductive Reachable : DateTime → Prop where
  | new_ok (year month day_of_month hour minute second : Nat)
      (dt : DateTime)
      (h : DateTime.new year month day_of_month hour minute second = .ok dt) :
      Reachable dt
  | step_year (dt : DateTime) (v : Nat) (h : Reachable dt) :
      Reachable (dt.set_year v).1
  | step_month (dt : DateTime) (v : Nat) (h : Reachable dt) :
      Reachable (dt.set_month v).1
  | step_day (dt : DateTime) (v : Nat) (h : Reachable dt) :
      Reachable (dt.set_day_of_month v).1
  | step_hour (dt : DateTime) (v : Nat) (h : Reachable dt) :
      Reachable (dt.set_hour v).1
  | step_minute (dt : DateTime) (v : Nat) (h : Reachable dt) :
      Reachable (dt.set_minute v).1
  | step_second (dt : DateTime) (v : Nat) (h : Reachable dt) :
      Reachable (dt.set_second v).1

/-! ## Helper lemmas -/

/-- Closed form of `DateTime.validate` as one if-chain, in source order. -/
lemma validate_closed_form (dt : DateTime) : dt.validate =
    (if dt.year < 1970 then some .invalidYear
     else if dt.month = 0 ∨ 12 < dt.month then some .invalidMonth
     else if dt.day_of_month = 0 ∨ days_in_month dt.year dt.month < dt.day_of_month then
       some .invalidDay
     else if 23 < dt.hour then some .invalidHour
     else if 59 < dt.minute then some .invalidMinute
     else if 59 < dt.second then some .invalidSecond
     else none) := by
  simp only [DateTime.validate, validate_year, validate_month, validate_day,
    validate_hour, validate_minute, validate_second]
  split_ifs <;> rfl

/-- Successful validation is exactly joint validity of the six fields. -/
lemma validate_eq_none_iff (dt : DateTime) : dt.validate = none ↔ Valid dt := by
  rw [validate_closed_form]
  unfold Valid
  split_ifs <;> simp <;> omega

/-- Closed form of `DateTime.set_year`. -/
lemma set_year_eq (dt : DateTime) (v : Nat) : dt.set_year v =
    (if v < 1970 then (dt, some .invalidYear)
     else if dt.day_of_month = 0 ∨ days_in_month v dt.month < dt.day_of_month then
       (dt, some .invalidDay)
     else ({ dt with year := v }, none)) := by
  simp only [DateTime.set_year, validate_year, validate_day]
  split_ifs <;> rfl

/-- Closed form of `DateTime.set_month`. -/
lemma set_month_eq (dt : DateTime) (v : Nat) : dt.set_month v =
    (if v = 0 ∨ 12 < v then (dt, some .invalidMonth)
     else if dt.day_of_month = 0 ∨ days_in_month dt.year v < dt.day_of_month then
       (dt, some .invalidDay)
     else ({ dt with month := v }, none)) := by
  simp only [DateTime.set_month, validate_month, validate_day]
  split_ifs <;> rfl

/-- Closed form of `DateTime.set_day_of_month`. -/
lemma set_day_of_month_eq (dt : DateTime) (v : Nat) : dt.set_day_of_month v =
    (if v = 0 ∨ days_in_month dt.year dt.month < v then (dt, some .invalidDay)
     else ({ dt with day_of_month := v }, none)) := by
  simp only [DateTime.set_day_of_month, validate_day]
  split_ifs <;> rfl

/-- Closed form of `DateTime.set_hour`. -/
lemma set_hour_eq (dt : DateTime) (v : Nat) : dt.set_hour v =
    (if 23 < v then (dt, some .invalidHour) else ({ dt with hour := v }, none)) := by
  simp only [DateTime.set_hour, validate_hour]
  split_ifs <;> rfl

/-- Closed form of `DateTime.set_minute`. -/
lemma set_minute_eq (dt : DateTime) (v : Nat) : dt.set_minute v =
    (if 59 < v then (dt, some .invalidMinute) else ({ dt with minute := v }, none)) := by
  simp only [DateTime.set_minute, validate_minute]
  split_ifs <;> rfl

/-- Closed form of `DateTime.set_second`. -/
lemma set_second_eq (dt : DateTime) (v : Nat) : dt.set_second v =
    (if 59 < v then (dt, some .invalidSecond) else ({ dt with second := v }, none)) := by
  simp only [DateTime.set_second, validate_second]
  split_ifs <;> rfl

/-- Rust `Weekday::from_number` succeeds on every argument in `1..=7`. -/
lemma from_number_ok_of_range (n : Nat) (h1 : 1 ≤ n) (h7 : n ≤ 7) :
    ∃ w, Weekday.from_number n = .ok w := by
  interval_cases n <;> exact ⟨_, rfl⟩

/-! ## Claims -/

/-- Claim C3: for every integer `d` in `0..=99`,
`to_decimal (from_decimal d) = d`, where
`from_decimal d = ((d / 10) << 4) | (d % 10)` and
`to_decimal b = (b >> 4) * 10 + (b & 0x0F)`. -/
theorem bcd_round_trip : ∀ d < 100, to_decimal (from_decimal d) = d := by decide

/-- Witness for C3 at `d = 59`. -/
theorem bcd_round_trip_witness : to_decimal (from_decimal 59) = 59 :=
  bcd_round_trip 59 (by decide)

/-- Claim C9: `to_decimal` is total over all 256 byte values and computes
`(b >> 4) * 10 + (b & 0x0F)` with no validation of nibble range; in
particular `to_decimal 0x0A = 10`. -/
theorem to_decimal_total_no_validation :
    (∀ b < 256, to_decimal b = (b >>> 4) * 10 + (b &&& 0x0F)) ∧
    to_decimal 0x0A = 10 :=
  ⟨by set_option maxRecDepth 4096 in decide, by decide⟩

/-- Witness for C9 at `b = 0xA5` (both nibbles out of decimal range). -/
theorem to_decimal_total_no_validation_witness :
    to_decimal 0xA5 = (0xA5 >>> 4) * 10 + (0xA5 &&& 0x0F) :=
  to_decimal_total_no_validation.1 0xA5 (by decide)

/-- Claim C8: `days_in_month` returns 31 for months {1,3,5,7,8,10,12},
30 for {4,6,9,11}, 29/28 for February according to `is_leap_year`, and 0
for any month outside `1..=12`; and `is_leap_year year` holds iff year is
divisible by 4 and (not divisible by 100 or divisible by 400), with
2000 and 2024 leap and 1900 and 2023 not. -/
theorem days_in_month_is_leap_year_spec : ∀ year month : Nat,
    ((month = 1 ∨ month = 3 ∨ month = 5 ∨ month = 7 ∨ month = 8 ∨
        month = 10 ∨ month = 12) → days_in_month year month = 31) ∧
    ((month = 4 ∨ month = 6 ∨ month = 9 ∨ month = 11) →
        days_in_month year month = 30) ∧
    (month = 2 →
        days_in_month year month = if is_leap_year year then 29 else 28) ∧
    ((month = 0 ∨ 12 < month) → days_in_month year month = 0) ∧
    (is_leap_year year = true ↔
        (year % 4 = 0 ∧ (year % 100 ≠ 0 ∨ year % 400 = 0))) ∧
    is_leap_year 2000 = true ∧ is_leap_year 2024 = true ∧
    is_leap_year 1900 = false ∧ is_leap_year 2023 = false := by
  intro year month
  refine ⟨?_, ?_, ?_, ?_, ?_, by decide, by decide, by decide, by decide⟩
  · rintro (rfl | rfl | rfl | rfl | rfl | rfl | rfl) <;> rfl
  · rintro (rfl | rfl | rfl | rfl) <;> rfl
  · rintro rfl; rfl
  · rintro (rfl | h)
    · rfl
    · obtain ⟨n, rfl⟩ : ∃ n, month = n + 13 := ⟨month - 13, by omega⟩
      rfl
  · simp [is_leap_year]

/-- Witness for C8: February of leap year 2024 has 29 days. -/
theorem days_in_month_is_leap_year_spec_witness : days_in_month 2024 2 = 29 := by
  have h := (days_in_month_is_leap_year_spec 2024 2).2.2.1 rfl
  simpa using h

/-- Claim C4: every `DateTime` reachable through the public interface
(constructed by a successful `DateTime::new`, then mutated only by setter
calls, the value being unchanged whenever a setter errors) satisfies the
joint validity invariant: year ≥ 1970, month in 1..=12, day in
`1..=days_in_month`, hour ≤ 23, minute ≤ 59, second ≤ 59. -/
theorem reachable_valid (dt : DateTime) (h : Reachable dt) : Valid dt := by
  induction h with
  | new_ok y mo d hh mi s dt hnew =>
    simp only [DateTime.new] at hnew
    split at hnew
    · exact absurd hnew (by simp)
    · next heq =>
      cases hnew
      exact (validate_eq_none_iff _).1 heq
  | step_year dt v _ ih =>
    rw [set_year_eq]
    split_ifs with h1 h2
    · exact ih
    · exact ih
    · simp only [Valid] at ih ⊢
      omega
  | step_month dt v _ ih =>
    rw [set_month_eq]
    split_ifs with h1 h2
    · exact ih
    · exact ih
    · simp only [Valid] at ih ⊢
      omega
  | step_day dt v _ ih =>
    rw [set_day_of_month_eq]
    split_ifs with h1
    · exact ih
    · simp only [Valid] at ih ⊢
      omega
  | step_hour dt v _ ih =>
    rw [set_hour_eq]
    split_ifs with h1
    · exact ih
    · simp only [Valid] at ih ⊢
      omega
  | step_minute dt v _ ih =>
    rw [set_minute_eq]
    split_ifs with h1
    · exact ih
    · simp only [Valid] at ih ⊢
      omega
  | step_second dt v _ ih =>
    rw [set_second_eq]
    split_ifs with h1
    · exact ih
    · simp only [Valid] at ih ⊢
      omega

/-- Witness for C4: a freshly constructed value is valid. -/
theorem reachable_valid_witness : Valid ⟨2024, 3, 15, 14, 30, 45⟩ :=
  reachable_valid _
    (Reachable.new_ok 2024 3 15 14 30 45 ⟨2024, 3, 15, 14, 30, 45⟩ rfl)

/-- Claim C5: for every valid `DateTime`, each setter errors exactly when the
proposed new value violates its field rule or (for `set_year`/`set_month`)
when the existing day exceeds `days_in_month` under the new pairing, reports
the specific field's error, and on error leaves all six fields unchanged;
in particular at 2024-01-31, `set_month 2` fails with `InvalidDay` while
`set_month 3` succeeds yielding 2024-03-31, and at 2024-02-29,
`set_year 2023` fails with `InvalidDay` leaving the value unchanged. -/
theorem setter_error_spec (dt : DateTime) (hv : Valid dt) (v : Nat) :
    ((dt.set_year v).2 =
      (if v < 1970 then some .invalidYear
       else if days_in_month v dt.month < dt.day_of_month then some .invalidDay
       else none)) ∧
    ((dt.set_year v).2 ≠ none → (dt.set_year v).1 = dt) ∧
    ((dt.set_month v).2 =
      (if v = 0 ∨ 12 < v then some .invalidMonth
       else if days_in_month dt.year v < dt.day_of_month then some .invalidDay
       else none)) ∧
    ((dt.set_month v).2 ≠ none → (dt.set_month v).1 = dt) ∧
    ((dt.set_day_of_month v).2 =
      (if v = 0 ∨ days_in_month dt.year dt.month < v then some .invalidDay
       else none)) ∧
    ((dt.set_day_of_month v).2 ≠ none → (dt.set_day_of_month v).1 = dt) ∧
    ((dt.set_hour v).2 = (if 23 < v then some .invalidHour else none)) ∧
    ((dt.set_hour v).2 ≠ none → (dt.set_hour v).1 = dt) ∧
    ((dt.set_minute v).2 = (if 59 < v then some .invalidMinute else none)) ∧
    ((dt.set_minute v).2 ≠ none → (dt.set_minute v).1 = dt) ∧
    ((dt.set_second v).2 = (if 59 < v then some .invalidSecond else none)) ∧
    ((dt.set_second v).2 ≠ none → (dt.set_second v).1 = dt) ∧
    DateTime.set_month ⟨2024, 1, 31, 0, 0, 0⟩ 2 =
      (⟨2024, 1, 31, 0, 0, 0⟩, some .invalidDay) ∧
    DateTime.set_month ⟨2024, 1, 31, 0, 0, 0⟩ 3 =
      (⟨2024, 3, 31, 0, 0, 0⟩, none) ∧
    DateTime.set_year ⟨2024, 2, 29, 0, 0, 0⟩ 2023 =
      (⟨2024, 2, 29, 0, 0, 0⟩, some .invalidDay) := by
  have hd1 : 1 ≤ dt.day_of_month := hv.2.2.2.1
  refine ⟨?_, ?_, ?_, ?_, ?_, ?_, ?_, ?_, ?_, ?_, ?_, ?_, rfl, rfl, rfl⟩
  · rw [set_year_eq]; split_ifs <;> simp_all
  · rw [set_year_eq]; split_ifs <;> simp
  · rw [set_month_eq]; split_ifs <;> simp_all
  · rw [set_month_eq]; split_ifs <;> simp
  · rw [set_day_of_month_eq]; split_ifs <;> simp_all
  · rw [set_day_of_month_eq]; split_ifs <;> simp
  · rw [set_hour_eq]; split_ifs <;> simp
  · rw [set_hour_eq]; split_ifs <;> simp
  · rw [set_minute_eq]; split_ifs <;> simp
  · rw [set_minute_eq]; split_ifs <;> simp
  · rw [set_second_eq]; split_ifs <;> simp
  · rw [set_second_eq]; split_ifs <;> simp

/-- Witness for C5: moving 2024-02-29 to year 2023 reports `InvalidDay`. -/
theorem setter_error_spec_witness :
    (DateTime.set_year ⟨2024, 2, 29, 0, 0, 0⟩ 2023).2 =
      some DateTimeError.invalidDay := by
  have h := (setter_error_spec ⟨2024, 2, 29, 0, 0, 0⟩ (by decide) 2023).1
  rw [h]
  decide

/-- Claim C6: for every valid `DateTime`, a successful setter call updates
exactly the targeted field and keeps the other five (in particular year and
month setters never clamp or adjust `day_of_month`). -/
theorem setter_ok_frame (dt : DateTime) (_hv : Valid dt) (v : Nat) :
    ((dt.set_year v).2 = none → (dt.set_year v).1 = { dt with year := v }) ∧
    ((dt.set_month v).2 = none → (dt.set_month v).1 = { dt with month := v }) ∧
    ((dt.set_day_of_month v).2 = none →
      (dt.set_day_of_month v).1 = { dt with day_of_month := v }) ∧
    ((dt.set_hour v).2 = none → (dt.set_hour v).1 = { dt with hour := v }) ∧
    ((dt.set_minute v).2 = none → (dt.set_minute v).1 = { dt with minute := v }) ∧
    ((dt.set_second v).2 = none → (dt.set_second v).1 = { dt with second := v }) := by
  refine ⟨?_, ?_, ?_, ?_, ?_, ?_⟩
  · rw [set_year_eq]; split_ifs <;> simp
  · rw [set_month_eq]; split_ifs <;> simp
  · rw [set_day_of_month_eq]; split_ifs <;> simp
  · rw [set_hour_eq]; split_ifs <;> simp
  · rw [set_minute_eq]; split_ifs <;> simp
  · rw [set_second_eq]; split_ifs <;> simp

/-- Witness for C6: setting the hour of 2024-01-01T00:00:00 to 23 changes
only the hour. -/
theorem setter_ok_frame_witness :
    (DateTime.set_hour ⟨2024, 1, 1, 0, 0, 0⟩ 23).1 = ⟨2024, 1, 1, 23, 0, 0⟩ :=
  (setter_ok_frame ⟨2024, 1, 1, 0, 0, 0⟩ (by decide) 23).2.2.2.1 rfl

/-- Claim C7: `DateTime::new` validates in the fixed order year, month, day,
hour, minute, second and surfaces the first failure; in particular
`new 1969 13 0 24 60 60` fails with `InvalidYear`. -/
theorem new_first_error (y m d h mi s : Nat) :
    DateTime.new y m d h mi s =
      (if y < 1970 then .error .invalidYear
       else if m = 0 ∨ 12 < m then .error .invalidMonth
       else if d = 0 ∨ days_in_month y m < d then .error .invalidDay
       else if 23 < h then .error .invalidHour
       else if 59 < mi then .error .invalidMinute
       else if 59 < s then .error .invalidSecond
       else .ok ⟨y, m, d, h, mi, s⟩) ∧
    DateTime.new 1969 13 0 24 60 60 = .error .invalidYear := by
  refine ⟨?_, rfl⟩
  simp only [DateTime.new, DateTime.validate, validate_year, validate_month,
    validate_day, validate_hour, validate_minute, validate_second]
  split_ifs <;> rfl

/-- Claim C1 fails on the code: on the valid date 2000-03-01 the `u16`
Zeller expression underflows and wraps, and since `2^16 % 7 = 2` the wrapped
value gives Friday where the exact congruence of the spec gives 4
(Wednesday); the four known values of the spec do hold. -/
theorem calculate_weekday_zeller_divergence :
    DateTime.new 2000 3 1 0 0 0 = .ok ⟨2000, 3, 1, 0, 0, 0⟩ ∧
    calculate_weekday 2000 3 1 = .ok .friday ∧
    zeller_spec_weekday_num 2000 3 1 = 4 ∧
    Weekday.from_number 4 = .ok .wednesday ∧
    Weekday.friday ≠ Weekday.wednesday ∧
    calculate_weekday 2024 1 1 = .ok .monday ∧
    calculate_weekday 2000 1 1 = .ok .saturday ∧
    calculate_weekday 2024 2 29 = .ok .thursday ∧
    calculate_weekday 2024 12 25 = .ok .wednesday :=
  ⟨rfl, rfl, by decide, rfl, by decide, rfl, rfl, rfl, rfl⟩

/-- Claim C2 fails on the code: on the valid date 2000-03-01 the minuend of
the `u16` subtraction `... - 2*j` is 16 while the subtrahend is 40, so the
subtraction does not stay in range: in debug builds it panics, and under the
release (wrapping) semantics the congruence yields the wrong weekday. -/
theorem calculate_weekday_underflow :
    DateTime.new 2000 3 1 0 0 0 = .ok ⟨2000, 3, 1, 0, 0, 0⟩ ∧
    zeller_minuend 2000 3 1 = 16 ∧
    zeller_subtrahend 2000 3 = 40 ∧
    zeller_minuend 2000 3 1 < zeller_subtrahend 2000 3 ∧
    calculate_weekday 2000 3 1 = .ok .friday ∧
    zeller_spec_weekday_num 2000 3 1 = 4 :=
  ⟨rfl, rfl, rfl, by decide, rfl, by decide⟩

/-- Claim C10: the standalone `calculate_weekday` validates nothing: under
the wrapping arithmetic it returns `Ok` of some weekday on every input (so
it never returns `InvalidYear`, `InvalidMonth` or `InvalidDay`), and on the
nonexistent date 2024-02-30 — which `DateTime::new` rejects — it still
returns `Ok`. -/
theorem calculate_weekday_no_input_validation :
    (∀ year month day_of_month,
      ∃ w, calculate_weekday year month day_of_month = .ok w) ∧
    calculate_weekday 2024 2 30 = .ok .friday ∧
    DateTime.new 2024 2 30 0 0 0 = .error .invalidDay := by
  refine ⟨?_, rfl, rfl⟩
  intro year month day_of_month
  simp only [calculate_weekday]
  exact from_number_ok_of_range _ (by omega) (by omega)

end RtcHal
